import Mathlib

/-!
Verification of the nad_amp repository: a shallow embedding of the NAD
protocol handler (protocol.py) and the connection manager (connection.py),
with theorems settling the frozen claims about message framing, parsing,
the device state mirror, the command path and the reconnect backoff loop.

Strings from the Python source are modelled as lists of characters; the
Python helpers str.startswith, str.split, str.strip and int() are embedded
as executable functions with the same observable behaviour, including the
exceptions (ValueError from int, IndexError from list indexing) that the
parsing path can raise.
-/

namespace NadAmp

/-- Python strings are modelled as lists of characters. -/
abbrev Str := List Char

/-- Python exceptions that the embedded code can raise. -/
inductive PyErr where
  | valueError
  | indexError
  | attributeError
  | osError

/-- Character-list prefix test, by recursion on the prefix. -/
def prefixOfChars : Str → Str → Bool
  | [], _ => true
  | _ :: _, [] => false
  | p :: ps, c :: cs => p == c && prefixOfChars ps cs

/-- Python s.startswith(pre). -/
def pyStartswith (s pre : Str) : Bool :=
  prefixOfChars pre s

/-- Python s.split(sep) for a one-character separator sep. -/
def pySplitChar (sep : Char) : Str → List Str
  | [] => [[]]
  | c :: cs =>
    if c = sep then [] :: pySplitChar sep cs
    else
      match pySplitChar sep cs with
      | [] => [[c]]
      | r :: rs => (c :: r) :: rs

/-- Python list indexing l[i]: raises IndexError when out of range. -/
def pyGet (l : List Str) (i : Nat) : Except PyErr Str :=
  match l[i]? with
  | some x => Except.ok x
  | none => Except.error PyErr.indexError

/-- Whitespace as stripped by Python int(). -/
def isPySpace (c : Char) : Bool := c.isWhitespace

/-- Python s.strip(): remove leading and trailing whitespace. -/
def pyStrip (s : Str) : Str :=
  ((s.dropWhile isPySpace).reverse.dropWhile isPySpace).reverse

/-- Numeric value of a nonempty all-digit string, if it is one. -/
def pyDigits? (l : Str) : Option Nat :=
  if l = [] then none
  else if l.all Char.isDigit then
    some (l.foldl (fun acc c => 10 * acc + (c.toNat - 48)) 0)
  else none

/-- Sign handling of Python int() after stripping. -/
def pyIntCore (l : Str) : Option Int :=
  match l with
  | c :: rest =>
    if c = '+' then
      match pyDigits? rest with
      | some n => some (n : Int)
      | none => none
    else if c = '-' then
      match pyDigits? rest with
      | some n => some (-(n : Int))
      | none => none
    else
      match pyDigits? l with
      | some n => some (n : Int)
      | none => none
  | [] => none

/-- Python int(s): strip whitespace, optional sign, decimal digits;
returns none where Python raises ValueError. -/
def pyInt? (s : Str) : Option Int :=
  pyIntCore (pyStrip s)

/-- One value of the sources dictionary of the NAD class: the per-source
record created as a dict with exactly the keys Name and Enabled. -/
structure SourceEntry where
  name : Str
  enabled : Bool

/-- The default entry created on first mention of a source key. -/
def defaultEntry : SourceEntry := ⟨[], false⟩

/-- First-match lookup in the (insertion ordered) sources dictionary. -/
def lookupSrc : List (Str × SourceEntry) → Str → Option SourceEntry
  | [], _ => none
  | (k0, e0) :: rest, k => if k0 = k then some e0 else lookupSrc rest k

/-- The pattern: if s not in self.sources, insert the default entry. -/
def ensureSrc (m : List (Str × SourceEntry)) (k : Str) : List (Str × SourceEntry) :=
  if (lookupSrc m k).isSome then m else m ++ [(k, defaultEntry)]

/-- Dictionary update self.sources[k] = e for a key already present. -/
def setSrc : List (Str × SourceEntry) → Str → SourceEntry → List (Str × SourceEntry)
  | [], _, _ => []
  | (k0, e0) :: rest, k, e =>
    if k0 = k then (k0, e) :: rest else (k0, e0) :: setSrc rest k e

/-- The mutable state of the NAD protocol handler (protocol.py, NAD class).
The asyncio transport is abstracted to a flag recording whether one is
attached; the deviceinfo asyncio.Event is abstracted to its set flag. -/
structure NADState where
  buffer : Str
  volume : Int
  model : Str
  sources : List (Str × SourceEntry)
  current_source : Str
  is_connected : Bool
  deviceinfo_received : Bool
  transport : Bool

/-- The state built by NAD.__init__. -/
def initNAD : NADState :=
  { buffer := []
    volume := -1
    model := "(none)".data
    sources := []
    current_source := []
    is_connected := false
    deviceinfo_received := false
    transport := false }

def vpPrefix : Str := "Main.VolumePercent=".data
def modelPrefix : Str := "Main.Model=".data
def mainSourcePrefix : Str := "Main.Source=".data
def sourcePrefix : Str := "Source".data

/-- The state-mirror update of the Source branch of parse_message: lazily
create the source entry for key s, then run the two sequential field
checks of the Python code (update Name on change, then update Enabled on
change, each setting newdata). Returns the new map and the newdata flag. -/
def applySourceAttr (m : List (Str × SourceEntry)) (s p v : Str) :
    List (Str × SourceEntry) × Bool :=
  let m1 := ensureSrc m s
  let e1 := (lookupSrc m1 s).getD defaultEntry
  let step1 : List (Str × SourceEntry) × Bool :=
    if p = "Name".data ∧ v ≠ e1.name
    then (setSrc m1 s ⟨v, e1.enabled⟩, true)
    else (m1, false)
  let e2 := (lookupSrc step1.1 s).getD defaultEntry
  let enabled : Bool := decide (v = "Yes".data)
  let step2 : List (Str × SourceEntry) × Bool :=
    if p = "Enabled".data ∧ enabled ≠ e2.enabled
    then (setSrc step1.1 s ⟨e2.name, enabled⟩, true)
    else (step1.1, false)
  (step2.1, step1.2 || step2.2)

/-- The branch of parse_message for messages starting with Source:
s = data.split(".")[0] (which cannot raise);
p = data.split("=")[0].split(".")[1] (IndexError when absent);
v = data.split("=")[1].replace("\x0d", "") (IndexError when absent);
then the mirror update of applySourceAttr. -/
def parseSourceMsg (st : NADState) (data : Str) : Except PyErr (NADState × Bool) :=
  match pyGet (pySplitChar '.' ((pySplitChar '=' data).headD [])) 1 with
  | Except.error e => Except.error e
  | Except.ok p =>
    match pyGet (pySplitChar '=' data) 1 with
    | Except.error e => Except.error e
    | Except.ok v0 =>
      Except.ok
        ({st with sources := (applySourceAttr st.sources
            ((pySplitChar '.' data).headD []) p
            (v0.filter (fun c => !(c == '\r')))).1},
          (applySourceAttr st.sources ((pySplitChar '.' data).headD []) p
            (v0.filter (fun c => !(c == '\r')))).2)

/-- NAD._parse_message: interpret one datagram, update the state mirror,
and report whether the message produced new data (which is what triggers
the update callback). Python exceptions surface as Except.error. -/
def parse_message (st : NADState) (data : Str) : Except PyErr (NADState × Bool) :=
  if pyStartswith data vpPrefix then
    match pyGet (pySplitChar '=' data) 1 with
    | Except.error e => Except.error e
    | Except.ok raw =>
      match pyInt? raw with
      | none => Except.error PyErr.valueError
      | some value =>
        if value ≠ st.volume then Except.ok ({st with volume := value}, true)
        else Except.ok (st, false)
  else if pyStartswith data modelPrefix then
    match pyGet (pySplitChar '=' data) 1 with
    | Except.error e => Except.error e
    | Except.ok value =>
      Except.ok ({st with model := value, deviceinfo_received := true}, false)
  else if pyStartswith data mainSourcePrefix then
    match pyGet (pySplitChar '=' data) 1 with
    | Except.error e => Except.error e
    | Except.ok value =>
      if sourcePrefix ++ value ≠ st.current_source then
        Except.ok ({st with current_source := sourcePrefix ++ value}, true)
      else Except.ok (st, false)
  else if pyStartswith data sourcePrefix then
    parseSourceMsg st data
  else
    Except.ok (st, false)

/-- The message loop of NAD._assemble_buffer: parse each nonempty message
in order; collect, in order, the raw message strings for which the update
callback fires (cb records whether an update_callback was supplied). -/
def parseAll (cb : Bool) (st : NADState) : List Str → Except PyErr (NADState × List Str)
  | [] => Except.ok (st, [])
  | m :: ms =>
    if m = [] then parseAll cb st ms
    else
      match parse_message st m with
      | Except.error e => Except.error e
      | Except.ok (st1, nd) =>
        match parseAll cb st1 ms with
        | Except.error e => Except.error e
        | Except.ok (st2, outs) =>
          Except.ok (st2, (if nd && cb then [m] else []) ++ outs)

/-- NAD._assemble_buffer: pause reading (an AttributeError if no transport
is attached), split the buffer on newline, parse every nonempty message in
order, then clear the buffer. -/
def assemble_buffer (cb : Bool) (st : NADState) : Except PyErr (NADState × List Str) :=
  if st.transport = false then Except.error PyErr.attributeError
  else
    match parseAll cb st (pySplitChar '\n' st.buffer) with
    | Except.error e => Except.error e
    | Except.ok (st1, outs) => Except.ok ({st1 with buffer := []}, outs)

/-- NAD.data_received: append the decoded bytes to the buffer and run
the assembly task. -/
def data_received (cb : Bool) (st : NADState) (data : Str) : Except PyErr (NADState × List Str) :=
  assemble_buffer cb {st with buffer := st.buffer ++ data}

/-- NAD.get_sources: names of the enabled sources, in insertion order. -/
def get_sources (st : NADState) : List Str :=
  (st.sources.filter (fun kv => kv.2.enabled)).map (fun kv => kv.2.name)

/-- NAD.get_current_source: the name of the current source if that key is
present and its name is nonempty (Python string truthiness), else "". -/
def get_current_source (st : NADState) : Str :=
  match lookupSrc st.sources st.current_source with
  | some e => if e.name ≠ [] then e.name else []
  | none => []

/-- The raw write self.transport.write inside formatted_command: an
AttributeError when no transport is attached, or an injected
transport-level error (writeErr) while one is. -/
def transport_write (st : NADState) (writeErr : Bool) : Except PyErr Unit :=
  if st.transport = false then Except.error PyErr.attributeError
  else if writeErr then Except.error PyErr.osError
  else Except.ok ()

/-- NAD.formatted_command: encode and write the command; any exception from
the write is caught and logged. The Bool result records whether the write
succeeded; the state is returned unchanged. -/
def formatted_command (writeErr : Bool) (st : NADState) (_cmd : Str) : NADState × Bool :=
  match transport_write st writeErr with
  | Except.ok _ => (st, true)
  | Except.error _ => (st, false)

/-- NAD.command: append the line terminator and send. -/
def command (writeErr : Bool) (st : NADState) (cmd : Str) : NADState × Bool :=
  formatted_command writeErr st (cmd ++ ['\n'])

/-- NAD.query: append the query marker and send as a command. -/
def query (writeErr : Bool) (st : NADState) (item : Str) : NADState × Bool :=
  command writeErr st (item ++ ['?'])

/-- NAD.connection_lost: flip is_connected, clear the deviceinfo event,
detach the transport, and schedule the connection_lost_callback when one
was supplied. The Nat result counts the callback invocations. -/
def connection_lost (hasCallback : Bool) (st : NADState) : NADState × Nat :=
  ({st with is_connected := false, deviceinfo_received := false, transport := false},
   if hasCallback then 1 else 0)

/-- NAD.heartbeat observed for a bounded number of loop iterations: the
guard is while self.is_connected, the body queries Main.Model. Returns the
list of model queries issued. -/
def heartbeatQueries (st : NADState) : Nat → List Str
  | 0 => []
  | n + 1 => if st.is_connected then "Main.Model".data :: heartbeatQueries st n else []

/-- NAD.check_connection (the watchdog) observed for a bounded number of
loop iterations: the guard is while self.is_connected. Returns the number
of wakeups taken. -/
def watchdogIterations (st : NADState) : Nat → Nat
  | 0 => 0
  | n + 1 => if st.is_connected then watchdogIterations st n + 1 else 0

/-- The retry state of the Connection class (connection.py). -/
structure RetryState where
  retry_interval : ℚ
  halted : Bool
  closing : Bool
  auto_reconnect : Bool

/-- Connection._reset_retry_interval. -/
def reset_retry_interval (c : RetryState) : RetryState :=
  {c with retry_interval := 1}

/-- Connection._increase_retry_interval: min(30, 1.5 * interval). -/
def increase_retry_interval (c : RetryState) : RetryState :=
  {c with retry_interval := min 30 (3 / 2 * c.retry_interval)}

/-- The observable outcome of one iteration of the Connection.reconnect
loop: a fixed halted sleep, a successful connect (which returns), a failed
connect followed by a backoff sleep, or a failed connect that re-raises. -/
inductive IterOut where
  | sleptHalted (secs : ℚ)
  | connected
  | failedRetry (slept : ℚ)
  | failedRaise

/-- One iteration of the while-loop body of Connection.reconnect, with the
result of the connect attempt supplied by the environment (connectOk). -/
def reconnectIter (c : RetryState) (connectOk : Bool) : RetryState × IterOut :=
  if c.halted then (c, IterOut.sleptHalted 2)
  else if connectOk then (reset_retry_interval c, IterOut.connected)
  else
    let c2 := increase_retry_interval c
    if !c2.auto_reconnect || c2.closing then (c2, IterOut.failedRaise)
    else (c2, IterOut.failedRetry c2.retry_interval)

/-- Connection.reconnect run against a script of connect-attempt outcomes,
one per loop iteration: stops on success (return), on a re-raise, or when
the bottom-of-loop check not auto_reconnect or closing breaks. -/
def reconnectRun (c : RetryState) : List Bool → RetryState × List IterOut
  | [] => (c, [])
  | ok :: rest =>
    match reconnectIter c ok with
    | (c2, IterOut.connected) => (c2, [IterOut.connected])
    | (c2, IterOut.failedRaise) => (c2, [IterOut.failedRaise])
    | (c2, out) =>
      if !c2.auto_reconnect || c2.closing then (c2, [out])
      else
        match reconnectRun c2 rest with
        | (c3, outs) => (c3, out :: outs)

/-- The Connection object as far as halt and resume observe it: the retry
state plus whether the protocol currently holds a transport. -/
structure Conn where
  retry : RetryState
  protocolTransport : Bool

/-- Connection.halt: set the halted flag; close the transport if one is
attached (the Bool result records whether close() was invoked). -/
def halt (c : Conn) : Conn × Bool :=
  ({c with retry := {c.retry with halted := true}}, c.protocolTransport)

/-- Connection.resume: clear the halted flag. -/
def resume (c : Conn) : Conn :=
  {c with retry := {c.retry with halted := false}}

/-- Decision procedure for the five recognized attribute forms exactly as
the spec lists them (section 4.1): used to state the claim about
unrecognized messages against the code. Modelled from the spec text, not
from the source. -/
def isSourceNameForm (d : Str) : Bool :=
  pyStartswith d sourcePrefix &&
    (let rest := d.drop 6
     let num := rest.takeWhile Char.isDigit
     let tail := rest.drop num.length
     !num.isEmpty && pyStartswith tail ".Name=".data)

/-- Spec form 5: Source(N).Enabled=(Yes or No) with N a digit string. -/
def isSourceEnabledForm (d : Str) : Bool :=
  pyStartswith d sourcePrefix &&
    (let rest := d.drop 6
     let num := rest.takeWhile Char.isDigit
     let tail := rest.drop num.length
     !num.isEmpty &&
       (decide (tail = ".Enabled=Yes".data) || decide (tail = ".Enabled=No".data)))

/-- A message matches one of the five recognized attribute forms of the
spec (section 4.1). -/
def specRecognizedForm (d : Str) : Bool :=
  (pyStartswith d vpPrefix && (pyInt? (d.drop 19)).isSome) ||
  pyStartswith d modelPrefix ||
  (pyStartswith d mainSourcePrefix && (pyInt? (d.drop 12)).isSome) ||
  isSourceNameForm d || isSourceEnabledForm d

/-! ## Helper lemmas about the embedded Python string primitives -/

/-- Splitting always yields at least one fragment. -/
theorem pySplit_shape (sep : Char) (l : Str) :
    ∃ r rs, pySplitChar sep l = r :: rs := by
  induction l with
  | nil => exact ⟨[], [], rfl⟩
  | cons a t ih =>
    rcases ih with ⟨r, rs, hr⟩
    by_cases h : a = sep
    · exact ⟨[], pySplitChar sep t, by simp [pySplitChar, h]⟩
    · exact ⟨a :: r, rs, by simp [pySplitChar, h, hr]⟩

/-- Splitting a list that does not contain the separator yields a single
fragment: the list itself. -/
theorem pySplit_single (sep : Char) (l : Str) (h : sep ∉ l) :
    pySplitChar sep l = [l] := by
  induction l with
  | nil => rfl
  | cons a t ih =>
    have ha : ¬a = sep := fun hh => h (hh ▸ List.mem_cons_self a t)
    have ht : sep ∉ t := fun hh => h (List.mem_cons_of_mem a hh)
    simp [pySplitChar, ha, ih ht]

/-- Membership survives dropWhile when the predicate rejects the element. -/
theorem mem_dropWhile_of_neg {p : Char → Bool} {x : Char} (hx : p x = false) :
    ∀ {l : Str}, x ∈ l → x ∈ l.dropWhile p := by
  intro l hl
  induction l with
  | nil => cases hl
  | cons a t ih =>
    by_cases ha : p a = true
    · have hxa : x ≠ a := fun hh => by rw [hh] at hx; rw [ha] at hx; cases hx
      have hxt : x ∈ t := by
        rcases List.mem_cons.mp hl with h1 | h1
        · exact absurd h1 hxa
        · exact h1
      simpa [List.dropWhile, ha] using ih hxt
    · have ha2 : p a = false := by
        cases hpa : p a
        · rfl
        · exact absurd hpa ha
      simpa [List.dropWhile, ha2] using hl

/-- Non-whitespace characters survive Python strip. -/
theorem mem_pyStrip {x : Char} (hx : isPySpace x = false) {l : Str} (h : x ∈ l) :
    x ∈ pyStrip l := by
  unfold pyStrip
  rw [List.mem_reverse]
  apply mem_dropWhile_of_neg hx
  rw [List.mem_reverse]
  exact mem_dropWhile_of_neg hx h

/-- Every character of a successfully parsed digit string is a digit. -/
theorem pyDigits_digits {l : Str} {n : Nat} (h : pyDigits? l = some n) :
    ∀ x ∈ l, x.isDigit = true := by
  intro x hx
  unfold pyDigits? at h
  by_cases h0 : l = []
  · simp [h0] at h
  · by_cases h1 : l.all Char.isDigit
    · exact List.all_eq_true.mp h1 x hx
    · simp [h0, h1] at h

/-- A string accepted by Python int() contains no equals sign. -/
theorem pyInt_no_eq {s : Str} {v : Int} (h : pyInt? s = some v) : '=' ∉ s := by
  intro hmem
  have hsp : isPySpace '=' = false := by decide
  have hmem2 : '=' ∈ pyStrip s := mem_pyStrip hsp hmem
  unfold pyInt? pyIntCore at h
  rcases hst : pyStrip s with _ | ⟨c, rest⟩
  · rw [hst] at hmem2; cases hmem2
  · rw [hst] at h hmem2
    by_cases hc : c = '+'
    · rcases hd : pyDigits? rest with _ | n
      · simp [hc, hd] at h
      · rcases List.mem_cons.mp hmem2 with h1 | h1
        · rw [hc] at h1; cases h1
        · have := pyDigits_digits hd '=' h1
          simp at this
    · by_cases hc2 : c = '-'
      · rcases hd : pyDigits? rest with _ | n
        · simp [hc, hc2, hd] at h
        · rcases List.mem_cons.mp hmem2 with h1 | h1
          · rw [hc2] at h1; cases h1
          · have := pyDigits_digits hd '=' h1
            simp at this
      · rcases hd : pyDigits? (c :: rest) with _ | n
        · simp [hc, hc2, hd] at h
        · have := pyDigits_digits hd '=' hmem2
          simp at this

/-- Evaluation lemma: parsing an empty-string message is skipped. -/
theorem parseAll_nil_skip (cb : Bool) (st : NADState) (ms : List Str) :
    parseAll cb st ([] :: ms) = parseAll cb st ms := by
  conv_lhs => rw [parseAll]
  simp

/-- Evaluation lemma: one successful parse step of the message loop. -/
theorem parseAll_cons_ok (cb : Bool) (st st1 : NADState) (nd : Bool)
    (m : Str) (ms : List Str) (hm : m ≠ [])
    (h1 : parse_message st m = Except.ok (st1, nd))
    (st2 : NADState) (outs : List Str)
    (h2 : parseAll cb st1 ms = Except.ok (st2, outs)) :
    parseAll cb st (m :: ms) =
      Except.ok (st2, (if nd && cb then [m] else []) ++ outs) := by
  rw [parseAll, if_neg hm, h1]
  show (match parseAll cb st1 ms with
    | Except.error e => Except.error e
    | Except.ok (st2, outs) =>
      Except.ok (st2, (if nd && cb then [m] else []) ++ outs)) = _
  rw [h2]

/-- Evaluation lemma: assemble_buffer on a connected session splits the
buffer on newline, runs the message loop, and clears the buffer. -/
theorem assemble_eval (cb : Bool) (st st1 : NADState) (outs : List Str)
    (htr : st.transport = true)
    (hp : parseAll cb st (pySplitChar '\n' st.buffer) = Except.ok (st1, outs)) :
    assemble_buffer cb st = Except.ok ({st1 with buffer := []}, outs) := by
  unfold assemble_buffer
  rw [htr]
  simp [hp]

/-- Evaluation of parse_message on a volume message: the volume is updated
and the change flag is exactly the comparison against the mirrored value. -/
theorem parse_vp (st : NADState) (s : Str) (v : Int) (h : pyInt? s = some v) :
    parse_message st (vpPrefix ++ s) =
      Except.ok ({st with volume := v}, decide (v ≠ st.volume)) := by
  have hne : '=' ∉ s := pyInt_no_eq h
  have hsingle : pySplitChar '=' s = [s] := pySplit_single '=' s hne
  have h0 : pySplitChar '=' (vpPrefix ++ s) =
      "Main.VolumePercent".data :: pySplitChar '=' s := rfl
  have hpre : pyStartswith (vpPrefix ++ s) vpPrefix = true := rfl
  unfold parse_message
  rw [hpre, if_pos rfl, h0, hsingle]
  simp only [pyGet]
  simp only [List.getElem?_cons_succ, List.getElem?_cons_zero, h]
  by_cases hv : v = st.volume
  · simp [hv]
  · simp [hv]

/-! ## Claim theorems -/

/-- Claim C9: every message of the form Main.Model= followed by a value
stores the value (the text up to the next equals sign) as the model and
sets the device-ready event, but never reports new data, so the
state-change callback is never invoked for a model message, even when the
stored model value changes. -/
theorem c9_model_no_callback (st : NADState) (v : Str) :
    parse_message st (modelPrefix ++ v) =
      Except.ok ({ st with
        model := (pySplitChar '=' v).headD []
        deviceinfo_received := true }, false) := by
  have h1 : pyStartswith (modelPrefix ++ v) vpPrefix = false := rfl
  have h2 : pyStartswith (modelPrefix ++ v) modelPrefix = true := rfl
  have h3 : pySplitChar '=' (modelPrefix ++ v) =
      "Main.Model".data :: pySplitChar '=' v := rfl
  rcases pySplit_shape '=' v with ⟨r, rs, hr⟩
  unfold parse_message
  rw [h1, h2, h3, hr]
  simp [pyGet]

/-- Claim C4: for every integer v (delivered as any string that Python
int() reads as v), parsing Main.VolumePercent= followed by v updates the
mirrored volume to v and reports a change exactly when v differs from the
previous mirrored value; reparsing the same message reports no change; the
initial sentinel volume is -1. -/
theorem c4_volume_idempotent (st : NADState) (s : Str) (v : Int)
    (h : pyInt? s = some v) :
    parse_message st (vpPrefix ++ s) =
      Except.ok ({st with volume := v}, decide (v ≠ st.volume)) ∧
    parse_message {st with volume := v} (vpPrefix ++ s) =
      Except.ok ({st with volume := v}, false) ∧
    initNAD.volume = -1 := by
  refine ⟨parse_vp st s v h, ?_, rfl⟩
  have h2 := parse_vp {st with volume := v} s v h
  simpa using h2

/-- Claim C4 witness at the concrete volume 37 from the initial state. -/
theorem c4_volume_idempotent_witness :
    parse_message initNAD "Main.VolumePercent=37".data =
      Except.ok ({initNAD with volume := 37}, true) ∧
    parse_message {initNAD with volume := 37} "Main.VolumePercent=37".data =
      Except.ok ({initNAD with volume := 37}, false) ∧
    initNAD.volume = -1 :=
  c4_volume_idempotent initNAD "37".data 37 rfl

/-- Claim C1: one inbound data event carrying two newline-terminated
volume messages, arriving at a connected session with an empty buffer and
a mirrored volume different from 10, is split on newline, parsed in
arrival order, leaves the mirrored volume at 20, and fires the change
callback exactly twice, once per message, in arrival order. -/
theorem c1_burst_order (vol : Int) (h : vol ≠ 10) (model : Str)
    (srcs : List (Str × SourceEntry)) (cur : Str) (conn dev : Bool) :
    data_received true ⟨[], vol, model, srcs, cur, conn, dev, true⟩
        "Main.VolumePercent=10\nMain.VolumePercent=20\n".data =
      Except.ok (⟨[], 20, model, srcs, cur, conn, dev, true⟩,
        ["Main.VolumePercent=10".data, "Main.VolumePercent=20".data]) := by
  have h10 : parse_message
      ⟨"Main.VolumePercent=10\nMain.VolumePercent=20\n".data,
        vol, model, srcs, cur, conn, dev, true⟩
      "Main.VolumePercent=10".data =
      Except.ok ((⟨"Main.VolumePercent=10\nMain.VolumePercent=20\n".data,
        10, model, srcs, cur, conn, dev, true⟩ : NADState),
        decide ((10 : Int) ≠ vol)) :=
    parse_vp _ "10".data 10 rfl
  rw [decide_eq_true (Ne.symm h)] at h10
  have h20 : parse_message
      ⟨"Main.VolumePercent=10\nMain.VolumePercent=20\n".data,
        10, model, srcs, cur, conn, dev, true⟩
      "Main.VolumePercent=20".data =
      Except.ok ((⟨"Main.VolumePercent=10\nMain.VolumePercent=20\n".data,
        20, model, srcs, cur, conn, dev, true⟩ : NADState), true) :=
    parse_vp _ "20".data 20 rfl
  have t2 : parseAll true
      ⟨"Main.VolumePercent=10\nMain.VolumePercent=20\n".data,
        20, model, srcs, cur, conn, dev, true⟩ [[]] =
      Except.ok ((⟨"Main.VolumePercent=10\nMain.VolumePercent=20\n".data,
        20, model, srcs, cur, conn, dev, true⟩ : NADState), []) := rfl
  have t1 : parseAll true
      ⟨"Main.VolumePercent=10\nMain.VolumePercent=20\n".data,
        10, model, srcs, cur, conn, dev, true⟩
      ["Main.VolumePercent=20".data, []] =
      Except.ok ((⟨"Main.VolumePercent=10\nMain.VolumePercent=20\n".data,
        20, model, srcs, cur, conn, dev, true⟩ : NADState),
        ["Main.VolumePercent=20".data]) :=
    parseAll_cons_ok true _ _ true "Main.VolumePercent=20".data [[]]
      (by decide) h20 _ [] t2
  have hAll : parseAll true
      ⟨"Main.VolumePercent=10\nMain.VolumePercent=20\n".data,
        vol, model, srcs, cur, conn, dev, true⟩
      ["Main.VolumePercent=10".data, "Main.VolumePercent=20".data, []] =
      Except.ok ((⟨"Main.VolumePercent=10\nMain.VolumePercent=20\n".data,
        20, model, srcs, cur, conn, dev, true⟩ : NADState),
        ["Main.VolumePercent=10".data, "Main.VolumePercent=20".data]) :=
    parseAll_cons_ok true _ _ true "Main.VolumePercent=10".data
      ["Main.VolumePercent=20".data, []] (by decide) h10 _
      ["Main.VolumePercent=20".data] t1
  exact assemble_eval true
    ⟨"Main.VolumePercent=10\nMain.VolumePercent=20\n".data,
      vol, model, srcs, cur, conn, dev, true⟩
    ⟨"Main.VolumePercent=10\nMain.VolumePercent=20\n".data,
      20, model, srcs, cur, conn, dev, true⟩
    ["Main.VolumePercent=10".data, "Main.VolumePercent=20".data] rfl hAll

/-- Claim C1 witness at the concrete prior volume 55. -/
theorem c1_burst_order_witness :
    data_received true ⟨[], 55, [], [], [], true, true, true⟩
        "Main.VolumePercent=10\nMain.VolumePercent=20\n".data =
      Except.ok (⟨[], 20, [], [], [], true, true, true⟩,
        ["Main.VolumePercent=10".data, "Main.VolumePercent=20".data]) :=
  c1_burst_order 55 (by decide) [] [] [] true true

/-- Claim C5: from the freshly initialized mirror, parsing Main.Source=2,
Source2.Name=Phono, Source2.Enabled=Yes in order yields a state whose
enabled-source-names accessor returns just Phono and whose current-source
accessor returns Phono. -/
theorem c5_source_scenario :
    parseAll true initNAD
        ["Main.Source=2".data, "Source2.Name=Phono".data,
          "Source2.Enabled=Yes".data] =
      Except.ok (⟨[], -1, "(none)".data,
        [("Source2".data, ⟨"Phono".data, true⟩)],
        "Source2".data, false, false, false⟩,
        ["Main.Source=2".data, "Source2.Name=Phono".data,
          "Source2.Enabled=Yes".data]) ∧
    get_sources ⟨[], -1, "(none)".data,
      [("Source2".data, ⟨"Phono".data, true⟩)],
      "Source2".data, false, false, false⟩ = ["Phono".data] ∧
    get_current_source ⟨[], -1, "(none)".data,
      [("Source2".data, ⟨"Phono".data, true⟩)],
      "Source2".data, false, false, false⟩ = "Phono".data :=
  ⟨rfl, rfl, rfl⟩

/-- Claim C3, counterexample: the message Sourcery matches none of the
five recognized attribute forms, yet parsing it is not silently ignored:
it raises IndexError (data.split("=")[0].split(".")[1] is out of range),
refuting the claim that every unrecognized message leaves the mirror
unchanged and raises no error. -/
theorem c3_counterexample :
    specRecognizedForm "Sourcery".data = false ∧
    parse_message initNAD "Sourcery".data = Except.error PyErr.indexError :=
  ⟨rfl, rfl⟩

/-- Claim C3, amended: every inbound message that does not start with one
of the four recognized prefixes (Main.VolumePercent=, Main.Model=,
Main.Source=, Source) is silently ignored: the mirror is unchanged, no
callback fires, and no error is raised. (Messages that do start with a
recognized prefix but have a malformed remainder can instead raise
ValueError or IndexError, or update the mirror.) -/
theorem c3_unrecognized_ignored (st : NADState) (d : Str)
    (h1 : pyStartswith d vpPrefix = false)
    (h2 : pyStartswith d modelPrefix = false)
    (h3 : pyStartswith d mainSourcePrefix = false)
    (h4 : pyStartswith d sourcePrefix = false) :
    parse_message st d = Except.ok (st, false) := by
  unfold parse_message
  rw [h1, h2, h3, h4]
  simp

/-- Claim C3 witness: a message with none of the recognized prefixes. -/
theorem c3_unrecognized_ignored_witness :
    parse_message initNAD "Hello.World=1".data = Except.ok (initNAD, false) :=
  c3_unrecognized_ignored initNAD "Hello.World=1".data rfl rfl rfl rfl

/-- Claim C6: for every command or query string, a write failure (no
transport attached, or a transport-level write error) is caught inside
formatted_command and never propagated: command and query return normally
with the device-state mirror unchanged. -/
theorem c6_write_swallowed (writeErr : Bool) (st : NADState) (s : Str) :
    (command writeErr st s).1 = st ∧ (query writeErr st s).1 = st ∧
    (transport_write st writeErr ≠ Except.ok () →
      command writeErr st s = (st, false) ∧
      query writeErr st s = (st, false)) := by
  rcases hw : transport_write st writeErr with e | u
  · simp [query, command, formatted_command, hw]
  · cases u
    simp [query, command, formatted_command, hw]

/-- Claim C6 witness: a write with no transport attached is discarded and
leaves the state unchanged. -/
theorem c6_write_swallowed_witness :
    command true initNAD "Main.Model".data = (initNAD, false) ∧
    query true initNAD "Main.Model".data = (initNAD, false) :=
  (c6_write_swallowed true initNAD "Main.Model".data).2.2
    (fun hh => Except.noConfusion hh)

/-- Claim C7: while the halted flag is set, every reconnect-loop iteration
only sleeps the fixed 2 seconds and makes no connect attempt and no change
to the retry state; halt sets the flag and closes the transport exactly
when one is attached; neither halt nor resume modifies the backoff
interval, and resume clears the flag. -/
theorem c7_halt_resume (c : Conn) (r : RetryState) (ok : Bool)
    (h : r.halted = true) :
    reconnectIter r ok = (r, IterOut.sleptHalted 2) ∧
    (halt c).1.retry.halted = true ∧
    (halt c).2 = c.protocolTransport ∧
    (halt c).1.retry.retry_interval = c.retry.retry_interval ∧
    (resume c).retry.retry_interval = c.retry.retry_interval ∧
    (resume c).retry.halted = false := by
  refine ⟨?_, rfl, rfl, rfl, rfl, rfl⟩
  unfold reconnectIter
  rw [h]
  simp

/-- Claim C7 witness: a halted retry state with a transport attached. -/
theorem c7_halt_resume_witness :
    reconnectIter ⟨7, true, false, true⟩ false =
      (⟨7, true, false, true⟩, IterOut.sleptHalted 2) ∧
    (halt ⟨⟨5, false, false, true⟩, true⟩).1.retry.halted = true ∧
    (halt ⟨⟨5, false, false, true⟩, true⟩).2 =
      (⟨⟨5, false, false, true⟩, true⟩ : Conn).protocolTransport ∧
    (halt ⟨⟨5, false, false, true⟩, true⟩).1.retry.retry_interval =
      (⟨⟨5, false, false, true⟩, true⟩ : Conn).retry.retry_interval ∧
    (resume ⟨⟨5, false, false, true⟩, true⟩).retry.retry_interval =
      (⟨⟨5, false, false, true⟩, true⟩ : Conn).retry.retry_interval ∧
    (resume ⟨⟨5, false, false, true⟩, true⟩).retry.halted = false :=
  c7_halt_resume ⟨⟨5, false, false, true⟩, true⟩ ⟨7, true, false, true⟩ false rfl

/-- Claim C8: on transport loss the session clears the connected flag (so
the heartbeat and watchdog loops take no further iteration), clears the
device-ready event, detaches the transport, and invokes the loss callback
exactly once. -/
theorem c8_connection_lost (st : NADState) (fuel : Nat) :
    connection_lost true st =
      ({ st with
        is_connected := false
        deviceinfo_received := false
        transport := false }, 1) ∧
    heartbeatQueries (connection_lost true st).1 fuel = [] ∧
    watchdogIterations (connection_lost true st).1 fuel = 0 := by
  refine ⟨rfl, ?_, ?_⟩ <;> cases fuel <;>
    simp [connection_lost, heartbeatQueries, watchdogIterations]

/-- Claim C2: every failed connect attempt grows the backoff interval to
min(30, 1.5 times the interval) and, when the loop retries, sleeps the
post-growth interval; every successful attempt resets the interval to 1;
three failures from the floor sleep 1.5, 2.25 and 3.375 seconds and a
following success resets the interval to 1. -/
theorem c2_backoff (c : RetryState) (h : c.halted = false) :
    (reconnectIter c false).1.retry_interval =
      min 30 (3 / 2 * c.retry_interval) ∧
    (c.auto_reconnect = true → c.closing = false →
      reconnectIter c false =
        ({c with retry_interval := min 30 (3 / 2 * c.retry_interval)},
          IterOut.failedRetry (min 30 (3 / 2 * c.retry_interval)))) ∧
    reconnectIter c true = ({c with retry_interval := 1}, IterOut.connected) ∧
    reconnectRun ⟨1, false, false, true⟩ [false, false, false, true] =
      (⟨1, false, false, true⟩,
        [IterOut.failedRetry (3 / 2), IterOut.failedRetry (9 / 4),
          IterOut.failedRetry (27 / 8), IterOut.connected]) := by
  refine ⟨?_, ?_, ?_, ?_⟩
  · unfold reconnectIter
    rw [h]
    simp only [Bool.false_eq_true, if_false, increase_retry_interval]
    split <;> rfl
  · intro ha hc
    simp [reconnectIter, increase_retry_interval, ha, hc, h]
  · simp [reconnectIter, reset_retry_interval, h]
  · simp only [reconnectRun, reconnectIter, increase_retry_interval,
      reset_retry_interval]
    norm_num [min_def]

/-- Claim C2 witness: one failed and one successful attempt from interval
4, plus the concrete three-failure run. -/
theorem c2_backoff_witness :
    (reconnectIter ⟨4, false, false, true⟩ false).1.retry_interval =
      min 30 (3 / 2 * (4 : ℚ)) ∧
    reconnectIter ⟨4, false, false, true⟩ false =
      (⟨min 30 (3 / 2 * (4 : ℚ)), false, false, true⟩,
        IterOut.failedRetry (min 30 (3 / 2 * (4 : ℚ)))) ∧
    reconnectIter ⟨4, false, false, true⟩ true =
      (⟨1, false, false, true⟩, IterOut.connected) ∧
    reconnectRun ⟨1, false, false, true⟩ [false, false, false, true] =
      (⟨1, false, false, true⟩,
        [IterOut.failedRetry (3 / 2), IterOut.failedRetry (9 / 4),
          IterOut.failedRetry (27 / 8), IterOut.connected]) :=
  have hx := c2_backoff ⟨4, false, false, true⟩ rfl
  ⟨hx.1, hx.2.1 rfl rfl, hx.2.2.1, hx.2.2.2⟩

/-! ## Lemmas about the sources dictionary operations -/

/-- Lookup in an appended map when the key is found on the left. -/
theorem lookupSrc_append_of_isSome (m l : List (Str × SourceEntry)) (k : Str)
    (h : (lookupSrc m k).isSome = true) :
    lookupSrc (m ++ l) k = lookupSrc m k := by
  induction m with
  | nil => simp [lookupSrc] at h
  | cons a rest ih =>
    rcases a with ⟨k0, e0⟩
    rw [List.cons_append]
    unfold lookupSrc
    by_cases hk : k0 = k
    · rw [if_pos hk, if_pos hk]
    · rw [if_neg hk, if_neg hk]
      apply ih
      unfold lookupSrc at h
      rw [if_neg hk] at h
      exact h

/-- Lookup in an appended map when the key is absent on the left. -/
theorem lookupSrc_append_of_none (m l : List (Str × SourceEntry)) (k : Str)
    (h : lookupSrc m k = none) :
    lookupSrc (m ++ l) k = lookupSrc l k := by
  induction m with
  | nil => rw [List.nil_append]
  | cons a rest ih =>
    rcases a with ⟨k0, e0⟩
    unfold lookupSrc at h
    rw [List.cons_append]
    show (if k0 = k then some e0 else lookupSrc (rest ++ l) k) = lookupSrc l k
    by_cases hk : k0 = k
    · rw [if_pos hk] at h
      cases h
    · rw [if_neg hk] at h
      rw [if_neg hk]
      exact ih h

/-- After ensureSrc, the ensured key maps to its previous entry or, when
absent, to the default entry. -/
theorem lookupSrc_ensure_self (m : List (Str × SourceEntry)) (s : Str) :
    lookupSrc (ensureSrc m s) s = some ((lookupSrc m s).getD defaultEntry) := by
  unfold ensureSrc
  rcases hm : lookupSrc m s with _ | e
  · rw [if_neg (by simp)]
    rw [lookupSrc_append_of_none m _ s hm]
    unfold lookupSrc
    rw [if_pos rfl]
    rfl
  · rw [if_pos (by simp)]
    rw [hm]
    rfl

/-- ensureSrc does not change the binding of any other key. -/
theorem lookupSrc_ensure_other (m : List (Str × SourceEntry)) (s k : Str)
    (hk : k ≠ s) :
    lookupSrc (ensureSrc m s) k = lookupSrc m k := by
  unfold ensureSrc
  by_cases hm : (lookupSrc m s).isSome = true
  · rw [if_pos hm]
  · rw [if_neg hm]
    rcases hmk : lookupSrc m k with _ | e
    · rw [lookupSrc_append_of_none m _ k hmk]
      unfold lookupSrc
      rw [if_neg (Ne.symm hk)]
      rfl
    · rw [lookupSrc_append_of_isSome m _ k (by rw [hmk]; rfl)]
      rw [hmk]

/-- setSrc replaces the binding of the written key when present. -/
theorem lookupSrc_set_self (m : List (Str × SourceEntry)) (s : Str)
    (e : SourceEntry) :
    lookupSrc (setSrc m s e) s = (lookupSrc m s).map (fun _ => e) := by
  induction m with
  | nil => rfl
  | cons a rest ih =>
    rcases a with ⟨k0, e0⟩
    unfold setSrc
    by_cases hk : k0 = s
    · rw [if_pos hk]
      unfold lookupSrc
      rw [if_pos hk, if_pos hk]
      rfl
    · rw [if_neg hk]
      unfold lookupSrc
      rw [if_neg hk, if_neg hk]
      exact ih

/-- setSrc does not change the binding of any other key. -/
theorem lookupSrc_set_other (m : List (Str × SourceEntry)) (s k : Str)
    (e : SourceEntry) (hk : k ≠ s) :
    lookupSrc (setSrc m s e) k = lookupSrc m k := by
  induction m with
  | nil => rfl
  | cons a rest ih =>
    rcases a with ⟨k0, e0⟩
    unfold setSrc
    by_cases h0 : k0 = s
    · rw [if_pos h0]
      unfold lookupSrc
      have hkk : ¬k0 = k := fun hh => hk (hh ▸ h0)
      rw [if_neg hkk, if_neg hkk]
    · rw [if_neg h0]
      unfold lookupSrc
      by_cases h1 : k0 = k
      · rw [if_pos h1, if_pos h1]
      · rw [if_neg h1, if_neg h1]
        exact ih

/-- applySourceAttr does not change the binding of keys other than the
one being applied. -/
theorem applySourceAttr_other (m : List (Str × SourceEntry)) (s p v k : Str)
    (hk : k ≠ s) :
    lookupSrc (applySourceAttr m s p v).1 k = lookupSrc m k := by
  unfold applySourceAttr
  simp only [apply_ite Prod.fst]
  split <;> split <;>
    · repeat rw [lookupSrc_set_other _ _ _ _ hk]
      rw [lookupSrc_ensure_other _ _ _ hk]

/-- applySourceAttr keeps every previously present key present. -/
theorem applySourceAttr_mono (m : List (Str × SourceEntry)) (s p v k : Str)
    (hk : (lookupSrc m k).isSome = true) :
    (lookupSrc (applySourceAttr m s p v).1 k).isSome = true := by
  by_cases hks : k = s
  · subst hks
    unfold applySourceAttr
    simp only [apply_ite Prod.fst]
    have hbase : lookupSrc (ensureSrc m k) k =
        some ((lookupSrc m k).getD defaultEntry) := lookupSrc_ensure_self m k
    split <;> split <;>
      · repeat rw [lookupSrc_set_self]
        rw [hbase]
        rfl
  · rw [applySourceAttr_other m s p v k hks]
    exact hk

/-- A key freshly created by applySourceAttr is the applied key, and its
entry still has the default value in the field the message did not set. -/
theorem applySourceAttr_new (m : List (Str × SourceEntry)) (s p v k : Str)
    (hk : lookupSrc m k = none) (e : SourceEntry)
    (he : lookupSrc (applySourceAttr m s p v).1 k = some e) :
    k = s ∧ (e.name = [] ∨ e.enabled = false) := by
  by_cases hks : k = s
  · subst hks
    refine ⟨rfl, ?_⟩
    have hbase : lookupSrc (ensureSrc m k) k = some defaultEntry := by
      rw [lookupSrc_ensure_self, hk]
      rfl
    unfold applySourceAttr at he
    simp only [apply_ite Prod.fst] at he
    split at he
    next hc1 =>
      split at he
      next hc2 =>
        exact absurd (hc1.1.symm.trans hc2.1) (by decide)
      next hc2 =>
        rw [lookupSrc_set_self, hbase] at he
        injection he with he2
        rw [← he2]
        exact Or.inr rfl
    next hc1 =>
      split at he
      next hc2 =>
        rw [lookupSrc_set_self, hbase] at he
        injection he with he2
        rw [← he2]
        exact Or.inl rfl
      next hc2 =>
        rw [hbase] at he
        injection he with he2
        rw [← he2]
        exact Or.inl rfl
  · rw [applySourceAttr_other m s p v k hks, hk] at he
    cases he

/-- parseSourceMsg, when it succeeds, only changes the sources map, and
does so through applySourceAttr at the key named by the message. -/
theorem parseSource_sources (st : NADState) (d : Str) (st2 : NADState)
    (b : Bool) (h : parseSourceMsg st d = Except.ok (st2, b)) :
    ∃ p v, st2.sources =
      (applySourceAttr st.sources ((pySplitChar '.' d).headD []) p v).1 := by
  unfold parseSourceMsg at h
  split at h
  · exact absurd h (by simp)
  · split at h
    · exact absurd h (by simp)
    · injection h with hp
      injection hp with h1 h2
      exact ⟨_, _, by rw [← h1]⟩

/-- When a parse branch leaves the sources map untouched, the key
invariant conclusions hold trivially. -/
theorem keys_goal_of_unchanged {A B : List (Str × SourceEntry)} (hBA : B = A)
    (k : Str) (e : SourceEntry) (P : Prop) :
    ((lookupSrc A k).isSome = true → (lookupSrc B k).isSome = true) ∧
    (lookupSrc A k = none → lookupSrc B k = some e → P) := by
  subst hBA
  refine ⟨id, fun hn hsome => ?_⟩
  rw [hn] at hsome
  cases hsome

/-- Claim C10: every successful parse preserves the sources-map invariant:
keys are never removed, and a key is created only lazily, by a message
starting with Source naming that key, with the entry (a record with
exactly the fields Name and Enabled, by the SourceEntry type) initialized
from the default (empty name, disabled) so that the field the message did
not set still holds its default value. -/
theorem c10_sources_invariant (st st2 : NADState) (d k : Str)
    (e : SourceEntry) (b : Bool)
    (h : parse_message st d = Except.ok (st2, b)) :
    ((lookupSrc st.sources k).isSome = true →
      (lookupSrc st2.sources k).isSome = true) ∧
    (lookupSrc st.sources k = none → lookupSrc st2.sources k = some e →
      pyStartswith d sourcePrefix = true ∧
      k = (pySplitChar '.' d).headD [] ∧
      (e.name = [] ∨ e.enabled = false)) := by
  unfold parse_message at h
  by_cases h1 : pyStartswith d vpPrefix = true
  · rw [if_pos h1] at h
    split at h
    · exact absurd h (by simp)
    · split at h
      · exact absurd h (by simp)
      · split at h
        · injection h with hp
          injection hp with hA hB
          exact keys_goal_of_unchanged (by rw [← hA]) k e _
        · injection h with hp
          injection hp with hA hB
          exact keys_goal_of_unchanged (by rw [← hA]) k e _
  · rw [if_neg h1] at h
    by_cases h2 : pyStartswith d modelPrefix = true
    · rw [if_pos h2] at h
      split at h
      · exact absurd h (by simp)
      · injection h with hp
        injection hp with hA hB
        exact keys_goal_of_unchanged (by rw [← hA]) k e _
    · rw [if_neg h2] at h
      by_cases h3 : pyStartswith d mainSourcePrefix = true
      · rw [if_pos h3] at h
        split at h
        · exact absurd h (by simp)
        · split at h
          · injection h with hp
            injection hp with hA hB
            exact keys_goal_of_unchanged (by rw [← hA]) k e _
          · injection h with hp
            injection hp with hA hB
            exact keys_goal_of_unchanged (by rw [← hA]) k e _
      · rw [if_neg h3] at h
        by_cases h4 : pyStartswith d sourcePrefix = true
        · rw [if_pos h4] at h
          rcases parseSource_sources st d st2 b h with ⟨p, v, hs⟩
          constructor
          · intro hk
            rw [hs]
            exact applySourceAttr_mono _ _ _ _ _ hk
          · intro hnone he
            rw [hs] at he
            rcases applySourceAttr_new _ _ _ _ _ hnone e he with ⟨hkeq, hshape⟩
            exact ⟨h4, hkeq, hshape⟩
        · rw [if_neg h4] at h
          injection h with hp
          injection hp with hA hB
          exact keys_goal_of_unchanged (by rw [← hA]) k e _

/-- Claim C10 witness: the message Source2.Name=Phono creating the key
Source2 from the initial state. -/
theorem c10_sources_invariant_witness :
    pyStartswith "Source2.Name=Phono".data sourcePrefix = true ∧
    "Source2".data = (pySplitChar '.' "Source2.Name=Phono".data).headD [] ∧
    ((⟨"Phono".data, false⟩ : SourceEntry).name = [] ∨
      (⟨"Phono".data, false⟩ : SourceEntry).enabled = false) :=
  (c10_sources_invariant initNAD
    (NADState.mk [] (-1) "(none)".data
      [("Source2".data, ⟨"Phono".data, false⟩)] [] false false false)
    "Source2.Name=Phono".data "Source2".data ⟨"Phono".data, false⟩ true
    rfl).2 rfl rfl

end NadAmp
